import Mathlib

/-!
Shallow embedding of `src/image_matcher.cpp` (CS5330-proj2): the top-N
image-matching core.  Feature values are modelled as integers (`Int`): every
claim below concerns control flow, ordering and tie-breaking, none depends on
non-integral arithmetic.  `std::vector<char *> filenames` together with
`std::vector<std::vector<float>> data` (parallel arrays holding, per row, the
image filename and its feature vector) is modelled as a list of `Entry`.
-/

/-- One row of the CSV data: an image filename paired with its feature
vector (`filenames[i]` and `data[i]` in the C++ source). -/
structure Entry where
  name : String
  vec : List Int
deriving DecidableEq, Repr

instance : Inhabited Entry := ⟨⟨"", []⟩⟩

/-- The parallel arrays `filenames` / `data` of the source, as one list. -/
abbrev Dataset := List Entry

/-- Embedding of `find_target_index` (image_matcher.cpp lines 19-28): linear
scan returning the FIRST index whose filename matches the target, `none`
standing for the C++ sentinel `-1`. -/
def find_target_index (target : String) (d : Dataset) : Option Nat :=
  d.findIdx? (fun e => e.name == target)

/-- Modelled from the spec: `calculate_ssd` lives in
`include/distance_calculate.h`, which is absent from the retained sources.
Spec section 4.1 gives the formula "Σ(aᵢ − bᵢ)² over corresponding elements"
and states that "the original logic had no such check" regarding vector
lengths, so the model pairs corresponding elements (`zip`, i.e. the common
prefix) and performs no length validation. -/
def calculate_ssd (a b : List Int) : Int :=
  ((a.zip b).map (fun p => (p.1 - p.2) ^ 2)).sum

/-- Modelled from the spec: `calculate_histogramIntersection` lives in
`include/distance_calculate.h`, absent from the retained sources.  Spec
section 4.1 gives the formula "Σ min(aᵢ, bᵢ)"; as with `calculate_ssd`, no
length validation is performed. -/
def calculate_histogramIntersection (a b : List Int) : Int :=
  ((a.zip b).map (fun p => min p.1 p.2)).sum

/-- The comparison `std::sort(distances.begin(), distances.end())` uses on
`pair<float, int>`: lexicographic order, score first, index second.  It is a
total order (indices are distinct in the lists at hand, and the order is
antisymmetric on all pairs), so the sorted result is unique. -/
def pairLe (a b : Int × Nat) : Prop :=
  a.1 < b.1 ∨ (a.1 = b.1 ∧ a.2 ≤ b.2)

instance : DecidableRel pairLe := fun a b => by unfold pairLe; infer_instance

/-- The order realised by `std::sort(distances.rbegin(), distances.rend())`
in `find_topN_matches_rgb_hist`: the list ends up decreasing with respect to
the lexicographic pair order, i.e. larger scores first and, on equal scores,
larger (later) dataset indices first. -/
def pairGe (a b : Int × Nat) : Prop := pairLe b a

instance : DecidableRel pairGe := fun a b => by unfold pairGe; infer_instance

theorem pairLe_total : ∀ a b : Int × Nat, pairLe a b ∨ pairLe b a := by
  intro a b
  rcases lt_trichotomy a.1 b.1 with h | h | h
  · exact Or.inl (Or.inl h)
  · rcases Nat.le_total a.2 b.2 with h2 | h2
    · exact Or.inl (Or.inr ⟨h, h2⟩)
    · exact Or.inr (Or.inr ⟨h.symm, h2⟩)
  · exact Or.inr (Or.inl h)

theorem pairLe_trans : ∀ a b c : Int × Nat, pairLe a b → pairLe b c → pairLe a c := by
  intro a b c hab hbc
  rcases hab with h | ⟨he, hi⟩
  · rcases hbc with h2 | ⟨he2, _⟩
    · exact Or.inl (h.trans h2)
    · exact Or.inl (he2 ▸ h)
  · rcases hbc with h2 | ⟨he2, hi2⟩
    · exact Or.inl (he ▸ h2)
    · exact Or.inr ⟨he.trans he2, hi.trans hi2⟩

theorem pairLe_antisymm : ∀ a b : Int × Nat, pairLe a b → pairLe b a → a = b := by
  intro a b hab hba
  rcases hab with h | ⟨he, hi⟩
  · rcases hba with h2 | ⟨he2, _⟩
    · exact absurd (h.trans h2) (lt_irrefl _)
    · exact absurd (he2 ▸ h) (lt_irrefl _)
  · rcases hba with h2 | ⟨he2, hi2⟩
    · exact absurd (he ▸ h2) (lt_irrefl _)
    · exact Prod.ext he (Nat.le_antisymm hi hi2)

instance : IsTotal (Int × Nat) pairLe := ⟨pairLe_total⟩
instance : IsTrans (Int × Nat) pairLe := ⟨fun a b c => pairLe_trans a b c⟩
instance : IsAntisymm (Int × Nat) pairLe := ⟨fun a b => pairLe_antisymm a b⟩

instance : IsTotal (Int × Nat) pairGe := ⟨fun a b => pairLe_total b a⟩
instance : IsTrans (Int × Nat) pairGe := ⟨fun a b c hab hbc => pairLe_trans c b a hbc hab⟩
instance : IsAntisymm (Int × Nat) pairGe := ⟨fun a b hab hba => pairLe_antisymm a b hba hab⟩

/-- The `distances` list built by the Step-2 loop common to all four
`find_topN_matches_*` functions (e.g. lines 51-57): for every index `i`
except `target_index`, in dataset order, the pair
`(metric(data[i], target_vector), i)`. -/
def distancesList (metric : List Int → List Int → Int) (d : Dataset) (t : Nat) :
    List (Int × Nat) :=
  (d.enum.filter (fun p => p.1 ≠ t)).map
    (fun p => (metric p.2.vec (d.getD t default).vec, p.1))

/-- Failure mode of the `find_topN_matches_*` functions: the only early
return is `-1` after printing "Target image not found!". -/
inductive RankErr where
  | targetNotFound
deriving DecidableEq, Repr

/-- Common shape of the four `find_topN_matches_*` functions
(image_matcher.cpp lines 34-166), parameterized by the scoring function and
the order realised by the sort call.  Step 1 locates the target (first index
match, error on absence); Step 2 builds the `(distance, index)` pairs for
every other index; Step 3 sorts them (`std::sort` with the lexicographic
pair comparison yields the unique `r`-sorted permutation, here produced by
`List.insertionSort`); Step 4 pushes `filenames[match_index]` for the first
`i < N && i < distances.size()` entries — for `N ≤ 0` the loop body never
runs, hence `N.toNat`. -/
def find_topN (metric : List Int → List Int → Int) (r : Int × Nat → Int × Nat → Prop)
    [DecidableRel r] (target : String) (d : Dataset) (N : Int) :
    Except RankErr (List String) :=
  match find_target_index target d with
  | none => .error .targetNotFound
  | some t =>
    let sorted := List.insertionSort r (distancesList metric d t)
    .ok ((sorted.take N.toNat).map (fun p => (d.getD p.2 default).name))

/-- `find_topN_matches_ssd` (lines 34-68): SSD scores, ascending sort. -/
def find_topN_matches_ssd (target : String) (d : Dataset) (N : Int) :
    Except RankErr (List String) :=
  find_topN calculate_ssd pairLe target d N

/-- `find_topN_matches_rgb_hist` (lines 74-105): histogram-intersection
scores, descending sort (`rbegin`/`rend`). -/
def find_topN_matches_rgb_hist (target : String) (d : Dataset) (N : Int) :
    Except RankErr (List String) :=
  find_topN calculate_histogramIntersection pairGe target d N

/-- `find_topN_matches_multiHist` (lines 109-139): the helper
`calculate_multiHist_distance` is absent from the retained sources (spec
section 9 leaves its composite rule open), so the scoring function is a
parameter; the sort is ascending, as in the source. -/
def find_topN_matches_multiHist (calcMultiHist : List Int → List Int → Int)
    (target : String) (d : Dataset) (N : Int) : Except RankErr (List String) :=
  find_topN calcMultiHist pairLe target d N

/-- `find_topN_matches_textureColor` (lines 144-166): the helper
`calculate_textureColor_distance` is absent from the retained sources, so the
scoring function is a parameter; the sort is ascending, as in the source. -/
def find_topN_matches_textureColor (calcTextureColor : List Int → List Int → Int)
    (target : String) (d : Dataset) (N : Int) : Except RankErr (List String) :=
  find_topN calcTextureColor pairLe target d N

/-- The distinct fatal exits of `main` relevant to a ranking call (after
argument parsing and CSV loading, which are out of core scope):
`invalidN` is the `N <= 0` exit at lines 207-210, `cannotProcess` is the
generic `result != 0` exit at lines 249-252 (reached both when no dispatch
branch matched, `result` staying `-1`, and when the called
`find_topN_matches_*` returned `-1`). -/
inductive MainErr where
  | invalidN
  | cannotProcess
deriving DecidableEq, Repr

instance {e a : Type} [DecidableEq e] [DecidableEq a] : DecidableEq (Except e a) := fun x y =>
  match x, y with
  | .ok u, .ok v =>
    if h : u = v then isTrue (h ▸ rfl) else isFalse (fun hc => h (Except.ok.inj hc))
  | .ok _, .error _ => isFalse (fun hc => Except.noConfusion hc)
  | .error _, .ok _ => isFalse (fun hc => Except.noConfusion hc)
  | .error u, .error v =>
    if h : u = v then isTrue (h ▸ rfl) else isFalse (fun hc => h (Except.error.inj hc))

/-- Observable outcome of a `main` ranking run: whether the
"Invalid distance metric" warning of lines 215-221 was printed, and the
final result. -/
structure MainOutcome where
  warned : Bool
  result : Except MainErr (List String)
deriving DecidableEq, Repr

/-- The metric names accepted by the validation check at lines 215-216.
Note it contains "depth-dnn" but not "depth", while the dispatch at lines
235-245 handles "depth" but not "depth-dnn". -/
def metric_check_names : List String :=
  ["ssd", "rgb-hist", "multi-hist", "texture-color", "depth-dnn"]

/-- Embedding of the ranking path of `main` (lines 184-252), taking the
already-parsed inputs (target image name, loaded dataset, N, metric name)
plus the two scoring helpers absent from the retained sources.  Order of
checks follows the source: the `N <= 0` exit (lines 207-210) precedes the
metric-name check (lines 215-221), which only prints a warning and falls
through; dispatch (lines 232-245) leaves `result = -1` when no branch
matches, and `result != 0` exits with the generic message (lines 249-252). -/
def runMain (calcMultiHist calcTextureColor : List Int → List Int → Int)
    (target : String) (d : Dataset) (N : Int) (metricName : String) : MainOutcome :=
  if N ≤ 0 then ⟨false, .error .invalidN⟩
  else
    let warned := !(metric_check_names.contains metricName)
    let branch : Option (Except RankErr (List String)) :=
      if metricName = "ssd" then some (find_topN_matches_ssd target d N)
      else if metricName = "rgb-hist" then some (find_topN_matches_rgb_hist target d N)
      else if metricName = "multi-hist" then
        some (find_topN_matches_multiHist calcMultiHist target d N)
      else if metricName = "texture-color" then
        some (find_topN_matches_textureColor calcTextureColor target d N)
      else if metricName = "depth" then
        some (find_topN_matches_textureColor calcTextureColor target d N)
      else none
    match branch with
    | none => ⟨warned, .error .cannotProcess⟩
    | some (.error _) => ⟨warned, .error .cannotProcess⟩
    | some (.ok out) => ⟨warned, .ok out⟩

/-- The five metric names the dispatch of lines 235-245 actually routes to a
matching routine. -/
def dispatch_names : List String :=
  ["ssd", "rgb-hist", "multi-hist", "texture-color", "depth"]

/-- The sorted `distances` vector after Step 3: `std::sort` (respectively the
reverse-iterator sort) with the lexicographic pair comparison produces the
unique `r`-sorted permutation of the scored pairs. -/
def sortedPairs (metric : List Int → List Int → Int) (r : Int × Nat → Int × Nat → Prop)
    [DecidableRel r] (d : Dataset) (t : Nat) : List (Int × Nat) :=
  List.insertionSort r (distancesList metric d t)

theorem length_filter_ne_range (n t : Nat) (h : t < n) :
    ((List.range n).filter (fun i => i ≠ t)).length = n - 1 := by
  induction n with
  | zero => omega
  | succ m ih =>
    rw [List.range_succ, List.filter_append]
    by_cases hm : t < m
    · have hmt : List.filter (fun i => decide (i ≠ t)) [m] = [m] := by
        simp
        omega
      rw [List.length_append, ih hm, hmt]
      simp
      omega
    · have ht : t = m := by omega
      subst ht
      have h1 : (List.range t).filter (fun i => i ≠ t) = List.range t := by
        apply List.filter_eq_self.mpr
        intro a ha
        simp only [List.mem_range] at ha
        simp only [decide_eq_true_eq]
        omega
      have h2 : List.filter (fun i => decide (i ≠ t)) [t] = [] := by simp
      rw [h1, h2]
      simp

theorem distancesList_length (f : List Int → List Int → Int) (d : Dataset) (t : Nat)
    (h : t < d.length) : (distancesList f d t).length = d.length - 1 := by
  unfold distancesList
  rw [List.length_map, ← List.countP_eq_length_filter]
  have h1 : (fun p : Nat × Entry => decide (p.1 ≠ t)) =
      (fun i => decide (i ≠ t)) ∘ Prod.fst := rfl
  rw [h1, ← List.countP_map, List.enum_map_fst, List.countP_eq_length_filter]
  exact length_filter_ne_range _ _ h

theorem mem_distancesList {f : List Int → List Int → Int} {d : Dataset} {t : Nat}
    {x : Int × Nat} :
    x ∈ distancesList f d t ↔
      ∃ i, i ≠ t ∧ ∃ h : i < d.length,
        x = (f (d.get ⟨i, h⟩).vec (d.getD t default).vec, i) := by
  unfold distancesList
  constructor
  · intro hx
    rcases List.mem_map.mp hx with ⟨p, hp, hpx⟩
    rcases List.mem_filter.mp hp with ⟨hpe, hpt⟩
    have hget := List.mem_enum_iff_getElem?.mp hpe
    have hlt : p.1 < d.length := by
      by_contra hcon
      rw [List.getElem?_eq_none (by omega)] at hget
      exact Option.noConfusion hget
    refine ⟨p.1, by simpa using hpt, hlt, ?_⟩
    have hval : d.get ⟨p.1, hlt⟩ = p.2 := by
      rw [List.getElem?_eq_getElem hlt] at hget
      exact Option.some.inj hget
    rw [← hpx, hval]
  · rintro ⟨i, hit, hlt, hx⟩
    apply List.mem_map.mpr
    refine ⟨(i, d.get ⟨i, hlt⟩), ?_, ?_⟩
    · apply List.mem_filter.mpr
      refine ⟨List.mem_enum_iff_getElem?.mpr ?_, by simpa using hit⟩
      simpa using (List.getElem?_eq_getElem hlt).symm
    · rw [hx]

theorem find_target_index_spec {q : String} {d : Dataset} {t : Nat}
    (h : find_target_index q d = some t) :
    ∃ hlt : t < d.length, (d.get ⟨t, hlt⟩).name = q ∧
      ∀ j (hj : j < t) (hjl : j < d.length), (d.get ⟨j, hjl⟩).name ≠ q := by
  unfold find_target_index at h
  rcases List.findIdx?_eq_some_iff_getElem.mp h with ⟨hlt, hpt, hfirst⟩
  refine ⟨hlt, by simpa using hpt, ?_⟩
  intro j hj hjl hname
  exact hfirst j hj (by simpa using hname)

theorem find_target_index_none {q : String} {d : Dataset}
    (h : ∀ e ∈ d, e.name ≠ q) : find_target_index q d = none := by
  unfold find_target_index
  apply List.findIdx?_eq_none_iff.mpr
  intro e he
  simpa using h e he

theorem find_topN_eq_ok (f : List Int → List Int → Int)
    (r : Int × Nat → Int × Nat → Prop) [DecidableRel r]
    (q : String) (d : Dataset) (N : Int) (t : Nat)
    (h : find_target_index q d = some t) :
    find_topN f r q d N =
      .ok (((sortedPairs f r d t).take N.toNat).map (fun p => (d.getD p.2 default).name)) := by
  unfold find_topN sortedPairs
  rw [h]

theorem pairwise_fst_of_sorted {r : Int × Nat → Int × Nat → Prop} [DecidableRel r]
    {s : Int → Int → Prop} (hrs : ∀ a b : Int × Nat, r a b → s a.1 b.1)
    (l : List (Int × Nat)) (hl : List.Pairwise r l) (N : Nat) :
    List.Pairwise s ((l.take N).map Prod.fst) := by
  rw [List.pairwise_map]
  exact (List.Pairwise.sublist (List.take_sublist N l) hl).imp (fun h => hrs _ _ h)

theorem pairwise_take_of_sorted {r : Int × Nat → Int × Nat → Prop} [DecidableRel r]
    {s : Int × Nat → Int × Nat → Prop} (hrs : ∀ a b : Int × Nat, r a b → s a b)
    (l : List (Int × Nat)) (hl : List.Pairwise r l) (N : Nat) :
    List.Pairwise s (l.take N) :=
  (List.Pairwise.sublist (List.take_sublist N l) hl).imp (fun h => hrs _ _ h)

theorem pairLe_fst_le : ∀ a b : Int × Nat, pairLe a b → a.1 ≤ b.1 := by
  intro a b hab
  rcases hab with h | ⟨he, _⟩
  · exact le_of_lt h
  · exact le_of_eq he

/-- C5: in every Result the scores of the returned identifiers follow the
metric's native direction: the ascending-direction metrics (ssd, multi-hist,
texture-color) produce adjacent scores with `score(r[i]) ≤ score(r[i+1])`,
while the descending-direction rgb-hist metric produces
`score(r[i]) ≥ score(r[i+1])`; the Result is exactly the names of the first
`N` sorted (score, index) pairs, whose score components are stated pairwise
ordered. -/
theorem result_scores_sorted_native_direction
    (q : String) (d : Dataset) (N : Int) (t : Nat)
    (fm ft : List Int → List Int → Int)
    (h : find_target_index q d = some t) :
    (find_topN_matches_ssd q d N =
        .ok (((sortedPairs calculate_ssd pairLe d t).take N.toNat).map
          (fun p => (d.getD p.2 default).name)) ∧
      List.Pairwise (· ≤ ·)
        (((sortedPairs calculate_ssd pairLe d t).take N.toNat).map Prod.fst)) ∧
    (find_topN_matches_rgb_hist q d N =
        .ok (((sortedPairs calculate_histogramIntersection pairGe d t).take N.toNat).map
          (fun p => (d.getD p.2 default).name)) ∧
      List.Pairwise (fun a b => b ≤ a)
        (((sortedPairs calculate_histogramIntersection pairGe d t).take N.toNat).map
          Prod.fst)) ∧
    (find_topN_matches_multiHist fm q d N =
        .ok (((sortedPairs fm pairLe d t).take N.toNat).map
          (fun p => (d.getD p.2 default).name)) ∧
      List.Pairwise (· ≤ ·) (((sortedPairs fm pairLe d t).take N.toNat).map Prod.fst)) ∧
    (find_topN_matches_textureColor ft q d N =
        .ok (((sortedPairs ft pairLe d t).take N.toNat).map
          (fun p => (d.getD p.2 default).name)) ∧
      List.Pairwise (· ≤ ·) (((sortedPairs ft pairLe d t).take N.toNat).map Prod.fst)) := by
  refine ⟨⟨find_topN_eq_ok _ _ _ _ _ _ h, ?_⟩, ⟨find_topN_eq_ok _ _ _ _ _ _ h, ?_⟩,
    ⟨find_topN_eq_ok _ _ _ _ _ _ h, ?_⟩, ⟨find_topN_eq_ok _ _ _ _ _ _ h, ?_⟩⟩
  · exact pairwise_fst_of_sorted pairLe_fst_le _
      (List.sorted_insertionSort pairLe (distancesList calculate_ssd d t)) _
  · exact pairwise_fst_of_sorted (fun a b hab => pairLe_fst_le b a hab) _
      (List.sorted_insertionSort pairGe (distancesList calculate_histogramIntersection d t)) _
  · exact pairwise_fst_of_sorted pairLe_fst_le _
      (List.sorted_insertionSort pairLe (distancesList fm d t)) _
  · exact pairwise_fst_of_sorted pairLe_fst_le _
      (List.sorted_insertionSort pairLe (distancesList ft d t)) _

theorem result_scores_sorted_native_direction_witness :
    find_target_index "A" [⟨"A", [0, 0]⟩, ⟨"B", [1, 1]⟩, ⟨"C", [5, 5]⟩] = some 0 ∧
    List.Pairwise (· ≤ ·)
      (((sortedPairs calculate_ssd pairLe
          [⟨"A", [0, 0]⟩, ⟨"B", [1, 1]⟩, ⟨"C", [5, 5]⟩] 0).take (2 : Int).toNat).map
        Prod.fst) ∧
    List.Pairwise (fun a b => b ≤ a)
      (((sortedPairs calculate_histogramIntersection pairGe
          [⟨"A", [0, 0]⟩, ⟨"B", [1, 1]⟩, ⟨"C", [5, 5]⟩] 0).take (2 : Int).toNat).map
        Prod.fst) :=
  ⟨by decide,
    (result_scores_sorted_native_direction "A"
      [⟨"A", [0, 0]⟩, ⟨"B", [1, 1]⟩, ⟨"C", [5, 5]⟩] 2 0
      calculate_ssd calculate_ssd (by decide)).1.2,
    (result_scores_sorted_native_direction "A"
      [⟨"A", [0, 0]⟩, ⟨"B", [1, 1]⟩, ⟨"C", [5, 5]⟩] 2 0
      calculate_ssd calculate_ssd (by decide)).2.1.2⟩

/-- C2 counterexample: for the descending-direction rgb-hist metric the
claimed stable tie-break fails.  With query `A = [1,1]` the entries
`B = [1,0]` (dataset index 1) and `C = [0,1]` (dataset index 2) have exactly
equal histogram-intersection scores, yet the Result is `["C", "B"]` — the
reverse of their dataset order `["B", "C"]` — because
`std::sort(rbegin, rend)` on (score, index) pairs puts larger indices first
among equal scores. -/
theorem rgb_hist_tie_reverses_dataset_order_cex :
    calculate_histogramIntersection [1, 0] [1, 1] =
      calculate_histogramIntersection [0, 1] [1, 1] ∧
    find_topN_matches_rgb_hist "A" [⟨"A", [1, 1]⟩, ⟨"B", [1, 0]⟩, ⟨"C", [0, 1]⟩] 2 =
      .ok ["C", "B"] ∧
    (["C", "B"] : List String) ≠ ["B", "C"] := by
  refine ⟨by decide, by decide, by decide⟩

/-- C2 amended: tie-breaking is direction-dependent.  For the
ascending-direction metrics (ssd, multi-hist, texture-color — all sorted via
`std::sort(begin, end)` on (score, index) pairs) entries with exactly equal
scores keep their original dataset relative order; for the
descending-direction rgb-hist metric (`std::sort(rbegin, rend)`) entries
with exactly equal scores appear in REVERSE dataset relative order.  The
`.2` components of the sorted pairs are the original dataset indices. -/
theorem tie_order_follows_sort_direction
    (f g : List Int → List Int → Int) (d : Dataset) (t : Nat) (N : Nat) :
    List.Pairwise (fun a b : Int × Nat => a.1 = b.1 → a.2 ≤ b.2)
      ((sortedPairs f pairLe d t).take N) ∧
    List.Pairwise (fun a b : Int × Nat => a.1 = b.1 → b.2 ≤ a.2)
      ((sortedPairs g pairGe d t).take N) := by
  constructor
  · refine pairwise_take_of_sorted ?_ _
      (List.sorted_insertionSort pairLe (distancesList f d t)) _
    intro a b hab he
    rcases hab with h | ⟨_, hi⟩
    · exact absurd h (by rw [he]; exact lt_irrefl _)
    · exact hi
  · refine pairwise_take_of_sorted ?_ _
      (List.sorted_insertionSort pairGe (distancesList g d t)) _
    intro a b hab he
    rcases hab with h | ⟨_, hi⟩
    · exact absurd h (by rw [he]; exact lt_irrefl _)
    · exact hi

/-- C6: when the target is found, the call succeeds and the Result is
exactly the first `min(N, count of scored entries)` identifiers of the
ranked order; when `N` exceeds the number of scored entries the length
equals that number (all are returned, no error), and a dataset whose single
entry is the query yields the empty Result, still without error. -/
theorem result_is_min_truncation
    (f : List Int → List Int → Int) (r : Int × Nat → Int × Nat → Prop) [DecidableRel r]
    (q : String) (d : Dataset) (N : Int) (t : Nat)
    (h : find_target_index q d = some t) :
    ∃ out, find_topN f r q d N = .ok out ∧
      out = ((sortedPairs f r d t).take N.toNat).map (fun p => (d.getD p.2 default).name) ∧
      out.length = min N.toNat (distancesList f d t).length ∧
      (distancesList f d t).length = d.length - 1 ∧
      (d.length = 1 → out = []) := by
  obtain ⟨hlt, -, -⟩ := find_target_index_spec h
  refine ⟨_, find_topN_eq_ok f r q d N t h, rfl, ?_, distancesList_length f d t hlt, ?_⟩
  · rw [List.length_map, List.length_take]
    unfold sortedPairs
    rw [List.length_insertionSort]
  · intro h1
    have h0 : (distancesList f d t).length = 0 := by
      rw [distancesList_length f d t hlt, h1]
    have h2 : sortedPairs f r d t = [] := by
      apply List.length_eq_zero.mp
      unfold sortedPairs
      rw [List.length_insertionSort]
      exact h0
    rw [h2]
    simp

theorem result_is_min_truncation_witness :
    find_target_index "A" [⟨"A", [0, 0]⟩, ⟨"B", [1, 1]⟩, ⟨"C", [5, 5]⟩] = some 0 ∧
    ∃ out, find_topN calculate_ssd pairLe "A"
        [⟨"A", [0, 0]⟩, ⟨"B", [1, 1]⟩, ⟨"C", [5, 5]⟩] 10 = .ok out ∧
      out = ((sortedPairs calculate_ssd pairLe
          [⟨"A", [0, 0]⟩, ⟨"B", [1, 1]⟩, ⟨"C", [5, 5]⟩] 0).take (10 : Int).toNat).map
        (fun p => (([⟨"A", [0, 0]⟩, ⟨"B", [1, 1]⟩, ⟨"C", [5, 5]⟩] : Dataset).getD
          p.2 default).name) ∧
      out.length = min (10 : Int).toNat
        (distancesList calculate_ssd [⟨"A", [0, 0]⟩, ⟨"B", [1, 1]⟩, ⟨"C", [5, 5]⟩] 0).length ∧
      (distancesList calculate_ssd
        [⟨"A", [0, 0]⟩, ⟨"B", [1, 1]⟩, ⟨"C", [5, 5]⟩] 0).length =
        ([⟨"A", [0, 0]⟩, ⟨"B", [1, 1]⟩, ⟨"C", [5, 5]⟩] : Dataset).length - 1 ∧
      (([⟨"A", [0, 0]⟩, ⟨"B", [1, 1]⟩, ⟨"C", [5, 5]⟩] : Dataset).length = 1 → out = []) :=
  ⟨by decide,
    result_is_min_truncation calculate_ssd pairLe "A"
      [⟨"A", [0, 0]⟩, ⟨"B", [1, 1]⟩, ⟨"C", [5, 5]⟩] 10 0 (by decide)⟩

/-- C7: when no entry of the dataset bears the query identifier, the call
fails with the distinct target-not-found error, for EVERY scoring function
and sort order — the failure does not depend on the metric, i.e. it
short-circuits before any scoring work. -/
theorem absent_query_fails_target_not_found
    (q : String) (d : Dataset) (hq : ∀ e ∈ d, e.name ≠ q)
    (f : List Int → List Int → Int) (r : Int × Nat → Int × Nat → Prop) [DecidableRel r]
    (N : Int) :
    find_topN f r q d N = .error .targetNotFound := by
  unfold find_topN
  rw [find_target_index_none hq]

theorem absent_query_fails_target_not_found_witness :
    (∀ e ∈ ([⟨"A", [1, 1]⟩, ⟨"B", [1, 0]⟩] : Dataset), e.name ≠ "Z") ∧
    find_topN calculate_ssd pairLe "Z" [⟨"A", [1, 1]⟩, ⟨"B", [1, 0]⟩] 3 =
      .error .targetNotFound :=
  ⟨by decide,
    absent_query_fails_target_not_found "Z" [⟨"A", [1, 1]⟩, ⟨"B", [1, 0]⟩]
      (by decide) calculate_ssd pairLe 3⟩

/-- C8: for every N ≤ 0 the `main` ranking path exits with the distinct
invalid-N error; the outcome does not depend on the query, the dataset, the
metric name or the scoring helpers, and the metric warning is not yet
printed — the rejection occurs before any other work. -/
theorem nonpositive_N_rejected_before_work
    (mh tc : List Int → List Int → Int) (q : String) (d : Dataset) (N : Int)
    (metricName : String) (h : N ≤ 0) :
    runMain mh tc q d N metricName = ⟨false, .error .invalidN⟩ := by
  unfold runMain
  rw [if_pos h]

theorem nonpositive_N_rejected_before_work_witness :
    (0 : Int) ≤ 0 ∧
    runMain calculate_ssd calculate_ssd "A" [⟨"A", [1, 1]⟩] 0 "ssd" =
      ⟨false, .error .invalidN⟩ :=
  ⟨by decide,
    nonpositive_N_rejected_before_work calculate_ssd calculate_ssd "A"
      [⟨"A", [1, 1]⟩] 0 "ssd" (by decide)⟩

/-- C9: ranking is deterministic including tie order.  `std::sort`
guarantees only that the `distances` vector ends up as SOME sorted
permutation of itself; because the comparison (lexicographic on
(score, index), antisymmetric) determines the arrangement uniquely, any two
conforming runs produce the same sorted list and hence the same Result. -/
theorem rank_deterministic_unique_sorted_output
    (f : List Int → List Int → Int) (d : Dataset) (t : Nat) (N : Nat)
    (r : Int × Nat → Int × Nat → Prop)
    (hr : ∀ a b : Int × Nat, r a b → r b a → a = b)
    (l1 l2 : List (Int × Nat))
    (hp1 : l1.Perm (distancesList f d t)) (hs1 : List.Sorted r l1)
    (hp2 : l2.Perm (distancesList f d t)) (hs2 : List.Sorted r l2) :
    (l1.take N).map (fun p => (d.getD p.2 default).name) =
      (l2.take N).map (fun p => (d.getD p.2 default).name) := by
  have h12 : l1 = l2 :=
    @List.eq_of_perm_of_sorted _ r ⟨hr⟩ _ _ (hp1.trans hp2.symm) hs1 hs2
  rw [h12]

theorem rank_deterministic_unique_sorted_output_witness :
    ([((2 : Int), 1), ((50 : Int), 2)].Perm
      (distancesList calculate_ssd [⟨"A", [0, 0]⟩, ⟨"B", [1, 1]⟩, ⟨"C", [5, 5]⟩] 0)) ∧
    List.Sorted pairLe [((2 : Int), 1), ((50 : Int), 2)] ∧
    ([((2 : Int), 1), ((50 : Int), 2)].take 2).map
        (fun p => (([⟨"A", [0, 0]⟩, ⟨"B", [1, 1]⟩, ⟨"C", [5, 5]⟩] : Dataset).getD
          p.2 default).name) =
      ([((2 : Int), 1), ((50 : Int), 2)].take 2).map
        (fun p => (([⟨"A", [0, 0]⟩, ⟨"B", [1, 1]⟩, ⟨"C", [5, 5]⟩] : Dataset).getD
          p.2 default).name) :=
  ⟨by decide, by decide,
    rank_deterministic_unique_sorted_output calculate_ssd
      [⟨"A", [0, 0]⟩, ⟨"B", [1, 1]⟩, ⟨"C", [5, 5]⟩] 0 2 pairLe pairLe_antisymm
      [((2 : Int), 1), ((50 : Int), 2)] [((2 : Int), 1), ((50 : Int), 2)]
      (by decide) (by decide) (by decide) (by decide)⟩

/-- C10: when the dataset holds several entries named like the query, only
the FIRST one (the index `find_target_index` returns) is excluded: any later
index `j` bearing the query's identifier is scored — its (score, j) pair is
in the distances list — and, with N large enough, the query's own identifier
appears in the Result. -/
theorem later_duplicate_query_entries_scored
    (f : List Int → List Int → Int) (r : Int × Nat → Int × Nat → Prop) [DecidableRel r]
    (q : String) (d : Dataset) (N : Int) (t j : Nat)
    (ht : find_target_index q d = some t) (hj : j < d.length) (hne : j ≠ t)
    (hq : (d.get ⟨j, hj⟩).name = q)
    (hN : (d.length - 1 : Nat) ≤ N.toNat) :
    (f (d.get ⟨j, hj⟩).vec (d.getD t default).vec, j) ∈ distancesList f d t ∧
    ∃ out, find_topN f r q d N = .ok out ∧ q ∈ out := by
  obtain ⟨hlt, -, -⟩ := find_target_index_spec ht
  have hmem : (f (d.get ⟨j, hj⟩).vec (d.getD t default).vec, j) ∈ distancesList f d t :=
    mem_distancesList.mpr ⟨j, hne, hj, rfl⟩
  refine ⟨hmem, _, find_topN_eq_ok f r q d N t ht, ?_⟩
  have htake : (sortedPairs f r d t).take N.toNat = sortedPairs f r d t := by
    apply List.take_of_length_le
    unfold sortedPairs
    rw [List.length_insertionSort, distancesList_length f d t hlt]
    exact hN
  rw [htake]
  apply List.mem_map.mpr
  refine ⟨(f (d.get ⟨j, hj⟩).vec (d.getD t default).vec, j), ?_, ?_⟩
  · exact ((List.perm_insertionSort r _).mem_iff).mpr hmem
  · show (d.getD j default).name = q
    rw [List.getD_eq_getElem d default hj]
    rw [List.get_eq_getElem] at hq
    exact hq

theorem later_duplicate_query_entries_scored_witness :
    find_target_index "A" [⟨"A", [0, 0]⟩, ⟨"B", [1, 1]⟩, ⟨"A", [9, 9]⟩] = some 0 ∧
    (∃ out, find_topN calculate_ssd pairLe "A"
        [⟨"A", [0, 0]⟩, ⟨"B", [1, 1]⟩, ⟨"A", [9, 9]⟩] 5 = .ok out ∧ "A" ∈ out) :=
  ⟨by decide,
    (later_duplicate_query_entries_scored calculate_ssd pairLe "A"
      [⟨"A", [0, 0]⟩, ⟨"B", [1, 1]⟩, ⟨"A", [9, 9]⟩] 5 0 2
      (by decide) (by decide) (by decide) (by decide) (by decide)).2⟩

/-- C3 counterexample: a dataset whose non-query entry has a vector length
different from the query's does NOT make the call fail: no DimensionMismatch
failure mode exists anywhere in the code (the only error the matching
routines can return is target-not-found), the mismatched entry is scored and
returned.  With query `A = [0,0]` and `B = [1]` (lengths 2 ≠ 1) the ssd call
succeeds with Result `["B"]`. -/
theorem no_dimension_check_call_succeeds_cex :
    ([(1 : Int)].length ≠ [(0 : Int), 0].length) ∧
    find_topN_matches_ssd "A" [⟨"A", [0, 0]⟩, ⟨"B", [1]⟩] 5 = .ok ["B"] :=
  ⟨by decide, by decide⟩

/-- C3 amended: the scoring helpers perform no length validation (spec
section 4.1 itself records that "the original logic had no such check") and
the ranking loop has no failure channel for scoring at all: for EVERY
scoring function — hence also on length-mismatched vectors — once the target
is found the call succeeds, and every non-query entry is scored (the
distances list has exactly `size − 1` entries; none is dropped, nothing is
propagated). -/
theorem scoring_never_fails_every_entry_scored
    (f : List Int → List Int → Int) (r : Int × Nat → Int × Nat → Prop) [DecidableRel r]
    (q : String) (d : Dataset) (N : Int) (t : Nat)
    (h : find_target_index q d = some t) :
    (∃ out, find_topN f r q d N = .ok out) ∧
    (distancesList f d t).length = d.length - 1 := by
  obtain ⟨hlt, -, -⟩ := find_target_index_spec h
  exact ⟨⟨_, find_topN_eq_ok f r q d N t h⟩, distancesList_length f d t hlt⟩

theorem scoring_never_fails_every_entry_scored_witness :
    find_target_index "A" [⟨"A", [0, 0]⟩, ⟨"B", [1]⟩] = some 0 ∧
    (∃ out, find_topN calculate_ssd pairLe "A" [⟨"A", [0, 0]⟩, ⟨"B", [1]⟩] 5 = .ok out) ∧
    (distancesList calculate_ssd [⟨"A", [0, 0]⟩, ⟨"B", [1]⟩] 0).length =
      ([⟨"A", [0, 0]⟩, ⟨"B", [1]⟩] : Dataset).length - 1 :=
  ⟨by decide,
    scoring_never_fails_every_entry_scored calculate_ssd pairLe "A"
      [⟨"A", [0, 0]⟩, ⟨"B", [1]⟩] 5 0 (by decide)⟩

/-- C4 counterexample: the query entry is excluded by INDEX (the first
name match), not by identifier equality.  With the dataset
`[A:[0,0], B:[1,1], A:[9,9]]` and query id `A`, the third entry — which
bears the query's own identifier — is scored and the Result `["B", "A"]`
contains `A` itself, contradicting "rank excludes q's own identifier". -/
theorem duplicate_query_id_in_result_cex :
    find_topN_matches_ssd "A" [⟨"A", [0, 0]⟩, ⟨"B", [1, 1]⟩, ⟨"A", [9, 9]⟩] 5 =
      .ok ["B", "A"] ∧
    "A" ∈ (["B", "A"] : List String) :=
  ⟨by decide, by decide⟩

/-- C4 amended: exclusion is by the index of the FIRST entry whose name
matches the query (find_target_index), not by identifier equality; when the
query identifier occurs at no index other than that first match — the
uniqueness invariant the spec's data model assumes — the Result never
contains the query's identifier, and every other entry is scored. -/
theorem query_excluded_when_id_unique
    (f : List Int → List Int → Int) (r : Int × Nat → Int × Nat → Prop) [DecidableRel r]
    (q : String) (d : Dataset) (N : Int) (t : Nat) (out : List String)
    (ht : find_target_index q d = some t)
    (huniq : ∀ i (hi : i < d.length), (d.get ⟨i, hi⟩).name = q → i = t)
    (hout : find_topN f r q d N = .ok out) :
    q ∉ out ∧ (distancesList f d t).length = d.length - 1 := by
  obtain ⟨hlt, -, -⟩ := find_target_index_spec ht
  refine ⟨?_, distancesList_length f d t hlt⟩
  have heq := find_topN_eq_ok f r q d N t ht
  rw [hout] at heq
  have hveq : out =
      ((sortedPairs f r d t).take N.toNat).map (fun p => (d.getD p.2 default).name) :=
    Except.ok.inj heq
  rw [hveq]
  intro hmem
  rcases List.mem_map.mp hmem with ⟨p, hp, hpq⟩
  have hp2 : p ∈ sortedPairs f r d t := List.Sublist.mem hp (List.take_sublist _ _)
  have hp3 : p ∈ distancesList f d t := ((List.perm_insertionSort r _).mem_iff).mp hp2
  rcases mem_distancesList.mp hp3 with ⟨i, hit, hil, hpe⟩
  subst hpe
  have hni : (d.get ⟨i, hil⟩).name = q := by
    rw [List.getD_eq_getElem d default hil] at hpq
    rw [List.get_eq_getElem]
    exact hpq
  exact hit (huniq i hil hni)

theorem query_excluded_when_id_unique_witness :
    find_target_index "A" [⟨"A", [0, 0]⟩, ⟨"B", [1, 1]⟩, ⟨"C", [5, 5]⟩] = some 0 ∧
    "A" ∉ (["B", "C"] : List String) ∧
    (distancesList calculate_ssd [⟨"A", [0, 0]⟩, ⟨"B", [1, 1]⟩, ⟨"C", [5, 5]⟩] 0).length =
      ([⟨"A", [0, 0]⟩, ⟨"B", [1, 1]⟩, ⟨"C", [5, 5]⟩] : Dataset).length - 1 :=
  ⟨by decide,
    (query_excluded_when_id_unique calculate_ssd pairLe "A"
      [⟨"A", [0, 0]⟩, ⟨"B", [1, 1]⟩, ⟨"C", [5, 5]⟩] 2 0 ["B", "C"]
      (by decide) (by decide) (by decide)).1,
    (query_excluded_when_id_unique calculate_ssd pairLe "A"
      [⟨"A", [0, 0]⟩, ⟨"B", [1, 1]⟩, ⟨"C", [5, 5]⟩] 2 0 ["B", "C"]
      (by decide) (by decide) (by decide)).2⟩

/-- C1 counterexample: an unregistered metric name is NOT rejected with a
distinct UnknownMetric error.  The check at lines 215-221 only prints a
warning (`warned = true`) and the program proceeds; dispatch then matches no
branch and the run ends in the same generic `cannotProcess` failure
(exit -1, "Can not process the files") that a missing query produces under
the valid metric name "ssd" — the two failure causes are indistinguishable
in the outcome. -/
theorem unknown_metric_no_distinct_error_cex :
    runMain calculate_ssd calculate_ssd "A" [⟨"A", [1, 1]⟩, ⟨"B", [1, 0]⟩] 1
        "cosine-unsupported" = ⟨true, .error .cannotProcess⟩ ∧
    runMain calculate_ssd calculate_ssd "Z" [⟨"A", [1, 1]⟩, ⟨"B", [1, 0]⟩] 1 "ssd" =
      ⟨false, .error .cannotProcess⟩ ∧
    "cosine-unsupported" ∉ metric_check_names :=
  ⟨by decide, by decide, by decide⟩

/-- C1 amended: for a metric name outside the dispatched set and positive N,
the run performs no scoring and defaults to no metric — the outcome is
independent of the dataset, the query and the scoring helpers — but the
failure is not a distinct UnknownMetric error: the name check merely prints
a warning (iff the name is also outside the check list, which differs from
the dispatched set on "depth"/"depth-dnn") and the run ends in the same
generic `cannotProcess` failure used for other ranking failures. -/
theorem unknown_metric_warns_then_generic_failure
    (mh tc : List Int → List Int → Int) (q : String) (d : Dataset) (N : Int)
    (name : String) (hname : name ∉ dispatch_names) (hN : 0 < N) :
    runMain mh tc q d N name =
      ⟨!(metric_check_names.contains name), .error .cannotProcess⟩ := by
  have h1 : ¬ (N ≤ 0) := by omega
  simp only [dispatch_names, List.mem_cons, List.not_mem_nil, or_false, not_or] at hname
  obtain ⟨h2, h3, h4, h5, h6⟩ := hname
  simp [runMain, h1, h2, h3, h4, h5, h6]

theorem unknown_metric_warns_then_generic_failure_witness :
    "intersection" ∉ dispatch_names ∧ (0 : Int) < 1 ∧
    runMain calculate_ssd calculate_ssd "A" [⟨"A", [1, 1]⟩] 1 "intersection" =
      ⟨!(metric_check_names.contains "intersection"), .error .cannotProcess⟩ :=
  ⟨by decide, by decide,
    unknown_metric_warns_then_generic_failure calculate_ssd calculate_ssd "A"
      [⟨"A", [1, 1]⟩] 1 "intersection" (by decide) (by decide)⟩
